import Mathlib

/-
Verification of the Versal EL3 power-management service
(plat/xilinx/versal/pm_service/pm_api_sys.c and pm_svc_main.c).

The mailbox transport (pm_ipi_*), the interrupt controller and the
client-state collaborator are external; they are modelled by an oracle
structure `Env` and every observable interaction with them is recorded
in an event trace, so that statements such as "no mailbox transaction
is issued" become equalities on traces.

Machine integers are modelled as Nat with explicit reductions mod 2^32
or 2^64 where the C code truncates.
-/

namespace VersalPM

/-! ## Constants taken from the source files -/

/-- pm_api_sys.c: target module id of the LibPM module. -/
def LIBPM_MODULE_ID : Nat := 0x2

/-- pm_api_sys.c: target module id of the loader module. -/
def LOADER_MODULE_ID : Nat := 0x7

/-- pm_api_sys.c: mask extracting the module-id byte of an api id. -/
def MODULE_ID_MASK : Nat := 0x0000ff00

/-- pm_svc_main.c: sentinel marking the SGI registration as empty. -/
def INVALID_SGI : Nat := 0xFF

/-- pm_svc_main.c: shift of the SGI initid field in ICC_ASGI1R_EL1. -/
def XSCUGIC_SGIR_EL1_INITID_SHIFT : Nat := 24

/-- pm_svc_main.c: callback id of a suspend-initiation notification. -/
def PM_INIT_SUSPEND_CB : Nat := 30

/-- pm_svc_main.c: callback id of a generic event notification. -/
def PM_NOTIFY_CB : Nat := 32

/-! ## Constants from repository headers that are not under src/
(pm_defs.h, pm_ipi.h, gicv3.h, errno.h, platform headers).  Their exact
numeric values do not matter for any claim; distinct values are kept. -/

/-- Modelled from the spec: the SUCCESS status of the error taxonomy. -/
def PM_RET_SUCCESS : Nat := 0

/-- Modelled from the spec: the INVALID_ARGS status of the error taxonomy. -/
def PM_RET_ERROR_ARGS : Nat := 1

/-- Modelled from the spec: the NOT_SUPPORTED status of the error taxonomy. -/
def PM_RET_ERROR_NOTSUPPORTED : Nat := 4

/-- Modelled from the spec: the INTERNAL status (target descriptor not resolved). -/
def PM_RET_ERROR_INTERNAL : Nat := 2000

/-- Modelled from the spec: errno code used for the "busy" failure of
SGI registration (pm_register_sgi returns -EBUSY). -/
def EBUSY : Nat := 16

/-- Modelled from the spec: errno code used for the "invalid argument"
failure of SGI registration (pm_register_sgi returns -EINVAL). -/
def EINVAL : Nat := 22

/-- Modelled from the spec: the platform's maximum valid SGI target
(GICV3_MAX_SGI_TARGETS of the GICv3 driver header). -/
def GICV3_MAX_SGI_TARGETS : Nat := 16

/-- Modelled from the spec: shutdown type selecting the set-scope-only variant. -/
def XPM_SHUTDOWN_TYPE_SETSCOPE_ONLY : Nat := 2

/-- Modelled from the spec: shutdown scope value for full-system reset,
the initial value of pm_shutdown_scope. -/
def XPM_SHUTDOWN_SUBTYPE_RST_SYSTEM : Nat := 2

/-- Modelled from the spec: query sub-id of the clock-name lookup
(member of the v2 name-query allow-list). -/
def XPM_QID_CLOCK_GET_NAME : Nat := 1

/-- Modelled from the spec: query sub-id of the pinctrl-function-name lookup
(member of the v2 name-query allow-list). -/
def XPM_QID_PINCTRL_GET_FUNCTION_NAME : Nat := 9

/-- Modelled from the spec: nested ioctl id setting PLL fractional mode. -/
def IOCTL_SET_PLL_FRAC_MODE : Nat := 8

/-- Modelled from the spec: nested ioctl id reading PLL fractional mode. -/
def IOCTL_GET_PLL_FRAC_MODE : Nat := 9

/-- Modelled from the spec: nested ioctl id setting PLL fractional data. -/
def IOCTL_SET_PLL_FRAC_DATA : Nat := 10

/-- Modelled from the spec: nested ioctl id reading PLL fractional data. -/
def IOCTL_GET_PLL_FRAC_DATA : Nat := 11

/-- Modelled from the spec: nested ioctl id registering the notification SGI. -/
def IOCTL_SET_SGI : Nat := 25

/-- Modelled from the spec: PLL parameter id for fractional data. -/
def PM_PLL_PARAM_DATA : Nat := 8

/-- Modelled from the spec: acknowledgment-flag value requesting a blocking send. -/
def IPI_BLOCKING : Nat := 1

/-- Modelled from the spec: base protocol version reported by feature check. -/
def PM_API_BASE_VERSION : Nat := 1

/-- Modelled from the spec: query-data protocol version reported by feature check. -/
def PM_API_QUERY_DATA_VERSION : Nat := 2

/-- Modelled from the spec: mask of the function-number bits of an SMC
function identifier. -/
def FUNCID_NUM_MASK : Nat := 0xFFFF

/-- Modelled from the spec: the architecturally defined unknown-SMC
sentinel (-1 as an unsigned 64-bit register value). -/
def SMC_UNK : Nat := 2 ^ 64 - 1

/-- Modelled from the spec: bit-24 payload flag for a secure caller. -/
def SECURE_FLAG : Nat := 0

/-- Modelled from the spec: bit-24 payload flag for a non-secure caller. -/
def NON_SECURE_FLAG : Nat := 1

/-- Modelled from the spec: number of cores covered by the idle broadcast. -/
def PLATFORM_CORE_COUNT : Nat := 2

/-- Modelled from the spec: SGI number used for the platform-internal
idle broadcast. -/
def VERSAL_CPU_IDLE_SGI : Nat := 7

/-- Modelled from the spec: event sub-code of a forced-subsystem-idle
notification. -/
def EVENT_CPU_IDLE_FORCE_PWRDWN_SUBSYS : Nat := 2

/-- Modelled from the spec: trustzone version constant returned by
PM_GET_TRUSTZONE_VERSION. -/
def VERSAL_TZ_VERSION : Nat := 0x10000

/-! ## PM API function identifiers (pm_defs.h, not under src/) -/

/-- Modelled from the spec: api id of PM_GET_API_VERSION. -/
def PM_GET_API_VERSION : Nat := 1

/-- Modelled from the spec: api id of PM_GET_DEVICE_STATUS. -/
def PM_GET_DEVICE_STATUS : Nat := 3

/-- Modelled from the spec: api id of PM_GET_OP_CHARACTERISTIC. -/
def PM_GET_OP_CHARACTERISTIC : Nat := 4

/-- Modelled from the spec: api id of PM_REGISTER_NOTIFIER. -/
def PM_REGISTER_NOTIFIER : Nat := 5

/-- Modelled from the spec: api id of PM_REQ_SUSPEND. -/
def PM_REQ_SUSPEND : Nat := 6

/-- Modelled from the spec: api id of PM_SELF_SUSPEND. -/
def PM_SELF_SUSPEND : Nat := 7

/-- Modelled from the spec: api id of PM_FORCE_POWERDOWN. -/
def PM_FORCE_POWERDOWN : Nat := 8

/-- Modelled from the spec: api id of PM_ABORT_SUSPEND. -/
def PM_ABORT_SUSPEND : Nat := 9

/-- Modelled from the spec: api id of PM_REQ_WAKEUP. -/
def PM_REQ_WAKEUP : Nat := 10

/-- Modelled from the spec: api id of PM_SET_WAKEUP_SOURCE. -/
def PM_SET_WAKEUP_SOURCE : Nat := 11

/-- Modelled from the spec: api id of PM_SYSTEM_SHUTDOWN. -/
def PM_SYSTEM_SHUTDOWN : Nat := 12

/-- Modelled from the spec: api id of PM_REQUEST_DEVICE. -/
def PM_REQUEST_DEVICE : Nat := 13

/-- Modelled from the spec: api id of PM_RELEASE_DEVICE. -/
def PM_RELEASE_DEVICE : Nat := 14

/-- Modelled from the spec: api id of PM_SET_REQUIREMENT. -/
def PM_SET_REQUIREMENT : Nat := 15

/-- Modelled from the spec: api id of PM_SET_MAX_LATENCY. -/
def PM_SET_MAX_LATENCY : Nat := 16

/-- Modelled from the spec: api id of PM_RESET_ASSERT. -/
def PM_RESET_ASSERT : Nat := 17

/-- Modelled from the spec: api id of PM_RESET_GET_STATUS. -/
def PM_RESET_GET_STATUS : Nat := 18

/-- Modelled from the spec: api id of PM_INIT_FINALIZE. -/
def PM_INIT_FINALIZE : Nat := 21

/-- Modelled from the spec: api id of PM_GET_CALLBACK_DATA. -/
def PM_GET_CALLBACK_DATA : Nat := 22

/-- Modelled from the spec: api id of PM_GET_CHIPID. -/
def PM_GET_CHIPID : Nat := 24

/-- Modelled from the spec: api id of PM_PINCTRL_REQUEST. -/
def PM_PINCTRL_REQUEST : Nat := 28

/-- Modelled from the spec: api id of PM_PINCTRL_RELEASE. -/
def PM_PINCTRL_RELEASE : Nat := 29

/-- Modelled from the spec: api id of PM_PINCTRL_GET_FUNCTION. -/
def PM_PINCTRL_GET_FUNCTION : Nat := 30

/-- Modelled from the spec: api id of PM_PINCTRL_SET_FUNCTION. -/
def PM_PINCTRL_SET_FUNCTION : Nat := 31

/-- Modelled from the spec: api id of PM_PINCTRL_CONFIG_PARAM_GET. -/
def PM_PINCTRL_CONFIG_PARAM_GET : Nat := 32

/-- Modelled from the spec: api id of PM_PINCTRL_CONFIG_PARAM_SET. -/
def PM_PINCTRL_CONFIG_PARAM_SET : Nat := 33

/-- Modelled from the spec: api id of PM_IOCTL. -/
def PM_IOCTL : Nat := 34

/-- Modelled from the spec: api id of PM_QUERY_DATA. -/
def PM_QUERY_DATA : Nat := 35

/-- Modelled from the spec: api id of PM_CLOCK_ENABLE. -/
def PM_CLOCK_ENABLE : Nat := 36

/-- Modelled from the spec: api id of PM_CLOCK_DISABLE. -/
def PM_CLOCK_DISABLE : Nat := 37

/-- Modelled from the spec: api id of PM_CLOCK_GETSTATE. -/
def PM_CLOCK_GETSTATE : Nat := 38

/-- Modelled from the spec: api id of PM_CLOCK_SETDIVIDER. -/
def PM_CLOCK_SETDIVIDER : Nat := 39

/-- Modelled from the spec: api id of PM_CLOCK_GETDIVIDER. -/
def PM_CLOCK_GETDIVIDER : Nat := 40

/-- Modelled from the spec: api id of PM_CLOCK_SETPARENT. -/
def PM_CLOCK_SETPARENT : Nat := 43

/-- Modelled from the spec: api id of PM_CLOCK_GETPARENT. -/
def PM_CLOCK_GETPARENT : Nat := 44

/-- Modelled from the spec: api id of PM_CLOCK_GETRATE. -/
def PM_CLOCK_GETRATE : Nat := 42

/-- Modelled from the spec: api id of PM_PLL_SET_PARAMETER. -/
def PM_PLL_SET_PARAMETER : Nat := 48

/-- Modelled from the spec: api id of PM_PLL_GET_PARAMETER. -/
def PM_PLL_GET_PARAMETER : Nat := 49

/-- Modelled from the spec: api id of PM_PLL_SET_MODE. -/
def PM_PLL_SET_MODE : Nat := 50

/-- Modelled from the spec: api id of PM_PLL_GET_MODE. -/
def PM_PLL_GET_MODE : Nat := 51

/-- Modelled from the spec: api id of PM_GET_TRUSTZONE_VERSION. -/
def PM_GET_TRUSTZONE_VERSION : Nat := 0xa03

/-- Modelled from the spec: api id of PM_FEATURE_CHECK. -/
def PM_FEATURE_CHECK : Nat := 63

/-- Modelled from the spec: api id of PM_LOAD_PDI. -/
def PM_LOAD_PDI : Nat := 0x701

/-! ## Data model -/

/-- Truncation to an unsigned 32-bit value. -/
def u32 (x : Nat) : Nat := x % 2 ^ 32

/-- Truncation to an unsigned 64-bit value. -/
def u64 (x : Nat) : Nat := x % 2 ^ 64

/-- Target descriptor (struct pm_proc): node id and power-down mask. -/
structure PmProc where
  node_id : Nat
  pwrdn_mask : Nat
deriving DecidableEq

/-- The process-wide mutable state of the service: the service-up flag
(pm_up, pm_svc_main.c), the registered SGI number (sgi, pm_svc_main.c)
and the shutdown scope (pm_shutdown_scope, pm_api_sys.c). -/
structure PMState where
  pm_up : Bool
  sgi : Nat
  pm_shutdown_scope : Nat
deriving DecidableEq

/-- Observable interactions with the excluded collaborators (mailbox
transport, interrupt controller, client-state hooks). -/
inductive Ev where
  | sendSync (target : Nat) (payload : List Nat) (count : Nat)
  | send (target : Nat) (payload : List Nat)
  | sendNonBlocking (target : Nat) (payload : List Nat)
  | irqClear (target : Nat)
  | buffRead (count : Nat)
  | clientSuspend (node : Nat) (state : Nat)
  | clientAbort
  | sgiWrite (reg : Nat)
  | raiseEl3Sgi (id : Nat) (core : Nat)
  | ack
  | eoi (id : Nat)
deriving DecidableEq

/-- Oracle for the excluded collaborators.  `sendSync target payload n`
yields the status decoded from the reply and the reply words the
transport places in the caller's buffer; `buffRead n` yields the words
read out of the response buffer by pm_ipi_buff_read_callb.  All reply
words are understood as unsigned 32-bit values. -/
structure Env where
  sendSync : PmProc → List Nat → Nat → Nat × List Nat
  send : PmProc → List Nat → Nat
  sendNonBlocking : PmProc → List Nat → Nat
  irqStatus : Bool
  buffRead : Nat → List Nat
  myCorePos : Nat
  getProc : Nat → Option PmProc
  primary : PmProc

/-- The transport writes the `count` leading reply words into the
caller's buffer and leaves the rest of the buffer unchanged. -/
def writeback (buf reply : List Nat) (count : Nat) : List Nat :=
  (List.range buf.length).map fun i =>
    if i < count then reply.getD i 0 else buf.getD i 0

/-! ## Message codec (PM_PACK_PAYLOAD macros, pm_api_sys.c) -/

/-- Word 0 of a frame: (arg0 & 0xFF) | (mid << 8) | (flag << 24),
in unsigned 32-bit arithmetic. -/
def packWord0 (mid flag arg0 : Nat) : Nat :=
  u32 ((arg0 &&& 0xFF) ||| u32 (mid <<< 8) ||| u32 (flag <<< 24))

/-- PM_PACK_PAYLOAD1: frame with word 0 only. -/
def PM_PACK_PAYLOAD1 (mid flag arg0 : Nat) : List Nat :=
  [packWord0 mid flag arg0]

/-- PM_PACK_PAYLOAD2: word 0 plus one raw argument word. -/
def PM_PACK_PAYLOAD2 (mid flag arg0 arg1 : Nat) : List Nat :=
  PM_PACK_PAYLOAD1 mid flag arg0 ++ [u32 arg1]

/-- PM_PACK_PAYLOAD3: word 0 plus two raw argument words. -/
def PM_PACK_PAYLOAD3 (mid flag arg0 arg1 arg2 : Nat) : List Nat :=
  PM_PACK_PAYLOAD2 mid flag arg0 arg1 ++ [u32 arg2]

/-- PM_PACK_PAYLOAD4: word 0 plus three raw argument words. -/
def PM_PACK_PAYLOAD4 (mid flag arg0 arg1 arg2 arg3 : Nat) : List Nat :=
  PM_PACK_PAYLOAD3 mid flag arg0 arg1 arg2 ++ [u32 arg3]

/-- PM_PACK_PAYLOAD5: word 0 plus four raw argument words. -/
def PM_PACK_PAYLOAD5 (mid flag arg0 arg1 arg2 arg3 arg4 : Nat) : List Nat :=
  PM_PACK_PAYLOAD4 mid flag arg0 arg1 arg2 arg3 ++ [u32 arg4]

/-- PM_PACK_PAYLOAD6: word 0 plus five raw argument words. -/
def PM_PACK_PAYLOAD6 (mid flag arg0 arg1 arg2 arg3 arg4 arg5 : Nat) : List Nat :=
  PM_PACK_PAYLOAD5 mid flag arg0 arg1 arg2 arg3 arg4 ++ [u32 arg5]

/-- Modelled from the spec: transport-level unpacking of frame word 0,
low byte = opcode. -/
def unpack_opcode (w : Nat) : Nat := w &&& 0xFF

/-- Modelled from the spec: transport-level unpacking of frame word 0,
byte 1 = module id. -/
def unpack_module_id (w : Nat) : Nat := (w >>> 8) &&& 0xFF

/-- Modelled from the spec: transport-level unpacking of frame word 0,
bit 24 = secure/non-secure flag. -/
def unpack_flag (w : Nat) : Nat := (w >>> 24) &&& 1

/-! ## SGI registration state machine (pm_register_sgi, pm_svc_main.c) -/

/-- pm_register_sgi: returns the C int result and the new state. -/
def pm_register_sgi (st : PMState) (sgi_num reset : Nat) : Int × PMState :=
  if reset = 1 then
    (0, { st with sgi := INVALID_SGI })
  else if st.sgi ≠ INVALID_SGI then
    (-(EBUSY : Int), st)
  else if sgi_num ≥ GICV3_MAX_SGI_TARGETS then
    (-(EINVAL : Int), st)
  else
    (0, { st with sgi := sgi_num })

/-! ## Shutdown (pm_system_shutdown, pm_api_sys.c) -/

/-- pm_system_shutdown: the set-scope-only type writes the scope
locally; every other type packs a frame and sends it non-blocking. -/
def pm_system_shutdown (env : Env) (st : PMState) (ttype subtype flag : Nat) :
    Nat × PMState × List Ev :=
  if ttype = XPM_SHUTDOWN_TYPE_SETSCOPE_ONLY then
    (PM_RET_SUCCESS, { st with pm_shutdown_scope := subtype }, [])
  else
    (env.sendNonBlocking env.primary
        (PM_PACK_PAYLOAD3 LIBPM_MODULE_ID flag PM_SYSTEM_SHUTDOWN ttype subtype),
     st,
     [Ev.sendNonBlocking env.primary.node_id
        (PM_PACK_PAYLOAD3 LIBPM_MODULE_ID flag PM_SYSTEM_SHUTDOWN ttype subtype)])

/-- C1: pm_register_sgi implements the two-state machine: reset=1 moves
to UNREGISTERED with success from every state; reset=0 while registered
fails busy leaving the state; reset=0 from UNREGISTERED with an SGI
number at or above the platform maximum fails with the invalid-argument
error leaving the state; reset=0 from UNREGISTERED with a valid number
registers it with success. -/
theorem pm_register_sgi_state_machine (st : PMState) (sgi_num : Nat) :
    (pm_register_sgi st sgi_num 1 = (0, { st with sgi := INVALID_SGI })) ∧
    (st.sgi ≠ INVALID_SGI → pm_register_sgi st sgi_num 0 = (-(EBUSY : Int), st)) ∧
    (st.sgi = INVALID_SGI → GICV3_MAX_SGI_TARGETS ≤ sgi_num →
        pm_register_sgi st sgi_num 0 = (-(EINVAL : Int), st)) ∧
    (st.sgi = INVALID_SGI → sgi_num < GICV3_MAX_SGI_TARGETS →
        pm_register_sgi st sgi_num 0 = (0, { st with sgi := sgi_num })) := by
  refine ⟨rfl, ?_, ?_, ?_⟩
  · intro h
    simp [pm_register_sgi, h]
  · intro h1 h2
    simp [pm_register_sgi, h1, h2, Nat.not_lt.mpr h2]
  · intro h1 h2
    simp [pm_register_sgi, h1, Nat.not_le.mpr h2, h2]

/-- Witness for C1: concrete run of all four transitions. -/
theorem pm_register_sgi_state_machine_witness :
    pm_register_sgi ⟨true, 0xFF, 2⟩ 5 0 = (0, ⟨true, 5, 2⟩) ∧
    pm_register_sgi ⟨true, 5, 2⟩ 5 0 = (-(EBUSY : Int), ⟨true, 5, 2⟩) ∧
    pm_register_sgi ⟨true, 0xFF, 2⟩ 99 0 = (-(EINVAL : Int), ⟨true, 0xFF, 2⟩) ∧
    pm_register_sgi ⟨true, 5, 2⟩ 3 1 = (0, ⟨true, 0xFF, 2⟩) := by
  refine ⟨?_, ?_, ?_, ?_⟩
  · exact (pm_register_sgi_state_machine ⟨true, 0xFF, 2⟩ 5).2.2.2 rfl (by decide)
  · exact (pm_register_sgi_state_machine ⟨true, 5, 2⟩ 5).2.1 (by decide)
  · exact (pm_register_sgi_state_machine ⟨true, 0xFF, 2⟩ 99).2.2.1 rfl (by decide)
  · exact (pm_register_sgi_state_machine ⟨true, 5, 2⟩ 3).1

/-! ## API call surface (pm_api_sys.c) -/

/-- pm_self_suspend: resolve the caller's target descriptor (internal
error when absent), run the client suspend hook, pack the frame with
the descriptor's node id and send it blocking with no reply words. -/
def pm_self_suspend (env : Env) (nid latency state address flag : Nat) :
    Nat × List Ev :=
  match env.getProc env.myCorePos with
  | none => (PM_RET_ERROR_INTERNAL, [])
  | some proc =>
    ((env.sendSync proc
        (PM_PACK_PAYLOAD6 LIBPM_MODULE_ID flag PM_SELF_SUSPEND proc.node_id
          latency state address (address >>> 32)) 0).1,
     [Ev.clientSuspend proc.node_id state,
      Ev.sendSync proc.node_id
        (PM_PACK_PAYLOAD6 LIBPM_MODULE_ID flag PM_SELF_SUSPEND proc.node_id
          latency state address (address >>> 32)) 0])

/-- pm_abort_suspend: client abort hook, then a blocking send. -/
def pm_abort_suspend (env : Env) (reason flag : Nat) : Nat × List Ev :=
  ((env.sendSync env.primary
      (PM_PACK_PAYLOAD3 LIBPM_MODULE_ID flag PM_ABORT_SUSPEND reason
        env.primary.node_id) 0).1,
   [Ev.clientAbort,
    Ev.sendSync env.primary.node_id
      (PM_PACK_PAYLOAD3 LIBPM_MODULE_ID flag PM_ABORT_SUSPEND reason
        env.primary.node_id) 0])

/-- pm_req_suspend: blocking or fire-and-forget depending on ack. -/
def pm_req_suspend (env : Env) (target ack latency state flag : Nat) :
    Nat × List Ev :=
  if ack = IPI_BLOCKING then
    ((env.sendSync env.primary
        (PM_PACK_PAYLOAD4 LIBPM_MODULE_ID flag PM_REQ_SUSPEND target latency state) 0).1,
     [Ev.sendSync env.primary.node_id
        (PM_PACK_PAYLOAD4 LIBPM_MODULE_ID flag PM_REQ_SUSPEND target latency state) 0])
  else
    (env.send env.primary
        (PM_PACK_PAYLOAD4 LIBPM_MODULE_ID flag PM_REQ_SUSPEND target latency state),
     [Ev.send env.primary.node_id
        (PM_PACK_PAYLOAD4 LIBPM_MODULE_ID flag PM_REQ_SUSPEND target latency state)])

/-- pm_req_wakeup: blocking send with no reply words. -/
def pm_req_wakeup (env : Env) (target set_address address ack flag : Nat) :
    Nat × List Ev :=
  ((env.sendSync env.primary
      (PM_PACK_PAYLOAD5 LIBPM_MODULE_ID flag PM_REQ_WAKEUP target set_address
        address ack) 0).1,
   [Ev.sendSync env.primary.node_id
      (PM_PACK_PAYLOAD5 LIBPM_MODULE_ID flag PM_REQ_WAKEUP target set_address
        address ack) 0])

/-- pm_get_callbackdata: return at once when the mailbox interrupt is
not pending; otherwise read `count` words out of the response buffer
and clear the interrupt exactly when ack is nonzero. -/
def pm_get_callbackdata (env : Env) (data : List Nat) (count flag ack : Nat) :
    List Nat × List Ev :=
  if env.irqStatus = false then
    (data, [])
  else
    (writeback data (env.buffRead count) count,
     [Ev.buffRead count] ++
       (if ack ≠ 0 then [Ev.irqClear env.primary.node_id] else []))

/-- pm_pll_set_param: blocking send with no reply words. -/
def pm_pll_set_param (env : Env) (clk_id param value flag : Nat) : Nat × List Ev :=
  ((env.sendSync env.primary
      (PM_PACK_PAYLOAD4 LIBPM_MODULE_ID flag PM_PLL_SET_PARAMETER clk_id param value) 0).1,
   [Ev.sendSync env.primary.node_id
      (PM_PACK_PAYLOAD4 LIBPM_MODULE_ID flag PM_PLL_SET_PARAMETER clk_id param value) 0])

/-- pm_pll_get_param: blocking send expecting one reply word. -/
def pm_pll_get_param (env : Env) (clk_id param flag : Nat) : Nat × Nat × List Ev :=
  ((env.sendSync env.primary
      (PM_PACK_PAYLOAD3 LIBPM_MODULE_ID flag PM_PLL_GET_PARAMETER clk_id param) 1).1,
   (env.sendSync env.primary
      (PM_PACK_PAYLOAD3 LIBPM_MODULE_ID flag PM_PLL_GET_PARAMETER clk_id param) 1).2.getD 0 0,
   [Ev.sendSync env.primary.node_id
      (PM_PACK_PAYLOAD3 LIBPM_MODULE_ID flag PM_PLL_GET_PARAMETER clk_id param) 1])

/-- pm_pll_set_mode: blocking send with no reply words. -/
def pm_pll_set_mode (env : Env) (clk_id mode flag : Nat) : Nat × List Ev :=
  ((env.sendSync env.primary
      (PM_PACK_PAYLOAD3 LIBPM_MODULE_ID flag PM_PLL_SET_MODE clk_id mode) 0).1,
   [Ev.sendSync env.primary.node_id
      (PM_PACK_PAYLOAD3 LIBPM_MODULE_ID flag PM_PLL_SET_MODE clk_id mode) 0])

/-- pm_pll_get_mode: blocking send expecting one reply word. -/
def pm_pll_get_mode (env : Env) (clk_id flag : Nat) : Nat × Nat × List Ev :=
  ((env.sendSync env.primary
      (PM_PACK_PAYLOAD2 LIBPM_MODULE_ID flag PM_PLL_GET_MODE clk_id) 1).1,
   (env.sendSync env.primary
      (PM_PACK_PAYLOAD2 LIBPM_MODULE_ID flag PM_PLL_GET_MODE clk_id) 1).2.getD 0 0,
   [Ev.sendSync env.primary.node_id
      (PM_PACK_PAYLOAD2 LIBPM_MODULE_ID flag PM_PLL_GET_MODE clk_id) 1])

/-- pm_force_powerdown: blocking or fire-and-forget depending on ack. -/
def pm_force_powerdown (env : Env) (target ack flag : Nat) : Nat × List Ev :=
  if ack = IPI_BLOCKING then
    ((env.sendSync env.primary
        (PM_PACK_PAYLOAD3 LIBPM_MODULE_ID flag PM_FORCE_POWERDOWN target ack) 0).1,
     [Ev.sendSync env.primary.node_id
        (PM_PACK_PAYLOAD3 LIBPM_MODULE_ID flag PM_FORCE_POWERDOWN target ack) 0])
  else
    (env.send env.primary
        (PM_PACK_PAYLOAD3 LIBPM_MODULE_ID flag PM_FORCE_POWERDOWN target ack),
     [Ev.send env.primary.node_id
        (PM_PACK_PAYLOAD3 LIBPM_MODULE_ID flag PM_FORCE_POWERDOWN target ack)])

/-- pm_feature_check: skip the remote check for foreign modules;
otherwise preset the local version word, send the check and or in the
firmware's version word on success.  `version0` is the prior content of
the caller's version variable (left untouched on the skip path). -/
def pm_feature_check (env : Env) (api_id version0 flag : Nat) : Nat × Nat × List Ev :=
  if (api_id &&& MODULE_ID_MASK) >>> 8 > 0 ∧
      (api_id &&& MODULE_ID_MASK) >>> 8 ≠ LIBPM_MODULE_ID then
    (PM_RET_SUCCESS, version0, [])
  else
    let ver :=
      if api_id = PM_GET_CALLBACK_DATA ∨ api_id = PM_GET_TRUSTZONE_VERSION ∨
          api_id = PM_QUERY_DATA then
        PM_API_QUERY_DATA_VERSION <<< 16
      else
        PM_API_BASE_VERSION <<< 16
    let r := env.sendSync env.primary
        (PM_PACK_PAYLOAD2 LIBPM_MODULE_ID flag PM_FEATURE_CHECK api_id) 1
    if r.1 ≠ PM_RET_SUCCESS then
      (r.1, ver,
       [Ev.sendSync env.primary.node_id
          (PM_PACK_PAYLOAD2 LIBPM_MODULE_ID flag PM_FEATURE_CHECK api_id) 1])
    else
      (PM_RET_SUCCESS, ver ||| r.2.getD 0 0,
       [Ev.sendSync env.primary.node_id
          (PM_PACK_PAYLOAD2 LIBPM_MODULE_ID flag PM_FEATURE_CHECK api_id) 1])

/-- pm_query_data: pack the query frame, feature-check the query-data
opcode, then classify the version word's low 16 bits: 3 means not
supported (nothing more is sent); 2 with a name-lookup qid means an
8-word reply followed by the destructive shift where reply word 0
becomes the returned status; anything else means a 4-word reply. -/
def pm_query_data (env : Env) (qid arg1 arg2 arg3 : Nat) (data : List Nat)
    (flag : Nat) : Nat × List Nat × List Ev :=
  let payload := PM_PACK_PAYLOAD5 LIBPM_MODULE_ID flag PM_QUERY_DATA qid arg1 arg2 arg3
  let fc := pm_feature_check env PM_QUERY_DATA 0 flag
  if fc.1 = PM_RET_SUCCESS then
    if fc.2.1 &&& 0xFFFF = 3 then
      (PM_RET_ERROR_NOTSUPPORTED, data, fc.2.2)
    else if fc.2.1 &&& 0xFFFF = 2 ∧
        (qid = XPM_QID_CLOCK_GET_NAME ∨ qid = XPM_QID_PINCTRL_GET_FUNCTION_NAME) then
      let d0 := writeback data (env.sendSync env.primary payload 8).2 8
      let d1 := d0.set 0 (d0.getD 1 0)
      let d2 := d1.set 1 (d1.getD 2 0)
      (d0.getD 0 0, d2.set 2 (d2.getD 3 0),
       fc.2.2 ++ [Ev.sendSync env.primary.node_id payload 8])
    else
      ((env.sendSync env.primary payload 4).1,
       writeback data (env.sendSync env.primary payload 4).2 4,
       fc.2.2 ++ [Ev.sendSync env.primary.node_id payload 4])
  else
    (fc.1, data, fc.2.2)

/-- pm_api_ioctl: nested ioctl dispatch.  Returns status, output value,
new state and events.  `value0` is the prior content of the caller's
output variable (left untouched on paths that do not write it). -/
def pm_api_ioctl (env : Env) (st : PMState)
    (device_id ioctl_id arg1 arg2 arg3 value0 flag : Nat) :
    Nat × Nat × PMState × List Ev :=
  if ioctl_id = IOCTL_SET_PLL_FRAC_MODE then
    ((pm_pll_set_mode env arg1 arg2 flag).1, value0, st,
     (pm_pll_set_mode env arg1 arg2 flag).2)
  else if ioctl_id = IOCTL_GET_PLL_FRAC_MODE then
    ((pm_pll_get_mode env arg1 flag).1, (pm_pll_get_mode env arg1 flag).2.1, st,
     (pm_pll_get_mode env arg1 flag).2.2)
  else if ioctl_id = IOCTL_SET_PLL_FRAC_DATA then
    ((pm_pll_set_param env arg1 PM_PLL_PARAM_DATA arg2 flag).1, value0, st,
     (pm_pll_set_param env arg1 PM_PLL_PARAM_DATA arg2 flag).2)
  else if ioctl_id = IOCTL_GET_PLL_FRAC_DATA then
    ((pm_pll_get_param env arg1 PM_PLL_PARAM_DATA flag).1,
     (pm_pll_get_param env arg1 PM_PLL_PARAM_DATA flag).2.1, st,
     (pm_pll_get_param env arg1 PM_PLL_PARAM_DATA flag).2.2)
  else if ioctl_id = IOCTL_SET_SGI then
    if (pm_register_sgi st arg1 arg2).1 ≠ 0 then
      (PM_RET_ERROR_ARGS, value0, (pm_register_sgi st arg1 arg2).2, [])
    else
      (PM_RET_SUCCESS, value0, (pm_register_sgi st arg1 arg2).2, [])
  else
    (PM_RET_ERROR_NOTSUPPORTED, value0, st, [])

/-- pm_set_wakeup_source: blocking send with no reply words. -/
def pm_set_wakeup_source (env : Env) (target wkup_device enable flag : Nat) :
    Nat × List Ev :=
  ((env.sendSync env.primary
      (PM_PACK_PAYLOAD4 LIBPM_MODULE_ID flag PM_SET_WAKEUP_SOURCE target
        wkup_device enable) 0).1,
   [Ev.sendSync env.primary.node_id
      (PM_PACK_PAYLOAD4 LIBPM_MODULE_ID flag PM_SET_WAKEUP_SOURCE target
        wkup_device enable) 0])

/-- pm_load_pdi: loader-module frame, blocking send with no reply words. -/
def pm_load_pdi (env : Env) (src address_low address_high flag : Nat) :
    Nat × List Ev :=
  ((env.sendSync env.primary
      (PM_PACK_PAYLOAD4 LOADER_MODULE_ID flag PM_LOAD_PDI src address_high
        address_low) 0).1,
   [Ev.sendSync env.primary.node_id
      (PM_PACK_PAYLOAD4 LOADER_MODULE_ID flag PM_LOAD_PDI src address_high
        address_low) 0])

/-- pm_register_notifier: blocking send with no reply words. -/
def pm_register_notifier (env : Env) (device_id event wake enable flag : Nat) :
    Nat × List Ev :=
  ((env.sendSync env.primary
      (PM_PACK_PAYLOAD5 LIBPM_MODULE_ID flag PM_REGISTER_NOTIFIER device_id
        event wake enable) 0).1,
   [Ev.sendSync env.primary.node_id
      (PM_PACK_PAYLOAD5 LIBPM_MODULE_ID flag PM_REGISTER_NOTIFIER device_id
        event wake enable) 0])

/-! ## Notification demux (pm_svc_main.c) -/

/-- notify_os: raise the registered SGI towards the issuing core,
encoding core index plus one in the low bits and the SGI number at
bit 24 of ICC_ASGI1R_EL1. -/
def notify_os (env : Env) (sgi : Nat) : List Ev :=
  [Ev.sgiWrite (u32 ((env.myCorePos + 1) |||
      (sgi <<< XSCUGIC_SGIR_EL1_INITID_SHIFT)))]

/-- request_cpu_idle: raise the platform idle SGI on every core named
in the bitmask. -/
def request_cpu_idle (core_mask : Nat) : List Ev :=
  (List.range PLATFORM_CORE_COUNT).filterMap fun i =>
    if core_mask &&& (1 <<< i) ≠ 0 then
      some (Ev.raiseEl3Sgi VERSAL_CPU_IDLE_SGI i)
    else
      none

/-- ipi_fiq_handler: acknowledge, read a 4-word callback payload, then
demultiplex on payload word 0; all paths end with end-of-interrupt. -/
def ipi_fiq_handler (env : Env) (st : PMState) (id : Nat) : List Ev :=
  let cb := pm_get_callbackdata env [0, 0, 0, 0] 4 0 0
  ([Ev.ack] ++ cb.2 ++
    (if cb.1.getD 0 0 = PM_INIT_SUSPEND_CB then
      if st.sgi ≠ INVALID_SGI then notify_os env st.sgi else []
    else if cb.1.getD 0 0 = PM_NOTIFY_CB then
      if cb.1.getD 2 0 = EVENT_CPU_IDLE_FORCE_PWRDWN_SUBSYS then
        request_cpu_idle (cb.1.getD 1 0) ++ [Ev.irqClear env.primary.node_id]
      else if st.sgi ≠ INVALID_SGI then notify_os env st.sgi else []
    else
      [Ev.irqClear env.primary.node_id]) ++
    [Ev.eoi id])

/-! ## SMC dispatch (pm_smc_handler, pm_svc_main.c) -/

/-- Result registers of an SMC (SMC_RET1 or SMC_RET2). -/
inductive SmcRet where
  | ret1 (x0 : Nat)
  | ret2 (x0 x1 : Nat)
deriving DecidableEq

/-- Packing of a status and an output value into one 64-bit return
register: status in the low 32 bits, value in the high 32 bits. -/
def smcPair (lo hi : Nat) : Nat := u64 (lo ||| u64 (hi <<< 32))

/-- Modelled from the spec: the API surface functions that
pm_smc_handler dispatches to whose definitions are not among the
source files (they are declared in pm_api_sys.h; each builds a frame
and drives it through the call engine, returning a status and its
output words). -/
structure ApiVTable where
  pm_request_device : Nat → Nat → Nat → Nat → Nat → Nat
  pm_release_device : Nat → Nat → Nat
  pm_set_requirement : Nat → Nat → Nat → Nat → Nat → Nat
  pm_get_api_version : Nat → Nat × Nat
  pm_get_device_status : Nat → Nat → Nat × (Nat × Nat × Nat)
  pm_reset_assert : Nat → Nat → Nat → Nat
  pm_reset_get_status : Nat → Nat → Nat × Nat
  pm_init_finalize : Nat → Nat
  pm_pinctrl_request : Nat → Nat → Nat
  pm_pinctrl_release : Nat → Nat → Nat
  pm_pinctrl_get_function : Nat → Nat → Nat × Nat
  pm_pinctrl_set_function : Nat → Nat → Nat → Nat
  pm_pinctrl_get_pin_param : Nat → Nat → Nat → Nat × Nat
  pm_pinctrl_set_pin_param : Nat → Nat → Nat → Nat → Nat
  pm_clock_enable : Nat → Nat → Nat
  pm_clock_disable : Nat → Nat → Nat
  pm_clock_get_state : Nat → Nat → Nat × Nat
  pm_clock_set_divider : Nat → Nat → Nat → Nat
  pm_clock_get_divider : Nat → Nat → Nat × Nat
  pm_clock_set_parent : Nat → Nat → Nat → Nat
  pm_clock_get_parent : Nat → Nat → Nat × Nat
  pm_clock_get_rate : Nat → Nat → Nat × (Nat × Nat)
  pm_get_chipid : Nat → Nat × (Nat × Nat)
  pm_get_op_characteristic : Nat → Nat → Nat → Nat × Nat
  pm_set_max_latency : Nat → Nat → Nat → Nat

/-- pm_arg[0]: low 32 bits of SMC register x1. -/
def pm_arg0 (x1 : Nat) : Nat := u32 x1

/-- pm_arg[1]: high 32 bits of SMC register x1. -/
def pm_arg1 (x1 : Nat) : Nat := u32 (x1 >>> 32)

/-- pm_arg[2]: low 32 bits of SMC register x2. -/
def pm_arg2 (x2 : Nat) : Nat := u32 x2

/-- pm_arg[3]: high 32 bits of SMC register x2. -/
def pm_arg3 (x2 : Nat) : Nat := u32 (x2 >>> 32)

/-- The bit-24 security flag derived from the trap metadata: non-secure
callers get NON_SECURE_FLAG, secure callers SECURE_FLAG. -/
def security_flag (ns : Bool) : Nat :=
  if ns then NON_SECURE_FLAG else SECURE_FLAG

/-- pm_smc_handler: reject every call while the service-up flag is
false; otherwise unpack the four 32-bit arguments out of x1/x2, derive
the security flag from the trap metadata and dispatch on the
function-number bits of the SMC function id.  The third component
records which API surface function was invoked (none on the unknown
paths), the fourth the transport events. -/
def pm_smc_handler (env : Env) (api : ApiVTable) (st : PMState)
    (smc_fid x1 x2 _x3 _x4 : Nat) (ns : Bool) :
    SmcRet × PMState × Option Nat × List Ev :=
  if st.pm_up = false then
    (SmcRet.ret1 SMC_UNK, st, none, [])
  else
    if smc_fid &&& FUNCID_NUM_MASK = PM_SELF_SUSPEND then
      let r := pm_self_suspend env (pm_arg0 x1) (pm_arg1 x1) (pm_arg2 x2) (pm_arg3 x2) (security_flag ns)
      (SmcRet.ret1 (u64 r.1), st, some PM_SELF_SUSPEND, r.2)
    else if smc_fid &&& FUNCID_NUM_MASK = PM_FORCE_POWERDOWN then
      let r := pm_force_powerdown env (pm_arg0 x1) (pm_arg1 x1) (security_flag ns)
      (SmcRet.ret1 (u64 r.1), st, some PM_FORCE_POWERDOWN, r.2)
    else if smc_fid &&& FUNCID_NUM_MASK = PM_REQ_SUSPEND then
      let r := pm_req_suspend env (pm_arg0 x1) (pm_arg1 x1) (pm_arg2 x2) (pm_arg3 x2) (security_flag ns)
      (SmcRet.ret1 (u64 r.1), st, some PM_REQ_SUSPEND, r.2)
    else if smc_fid &&& FUNCID_NUM_MASK = PM_ABORT_SUSPEND then
      let r := pm_abort_suspend env (pm_arg0 x1) (security_flag ns)
      (SmcRet.ret1 (u64 r.1), st, some PM_ABORT_SUSPEND, r.2)
    else if smc_fid &&& FUNCID_NUM_MASK = PM_SYSTEM_SHUTDOWN then
      let r := pm_system_shutdown env st (pm_arg0 x1) (pm_arg1 x1) (security_flag ns)
      (SmcRet.ret1 (u64 r.1), r.2.1, some PM_SYSTEM_SHUTDOWN, r.2.2)
    else if smc_fid &&& FUNCID_NUM_MASK = PM_REQ_WAKEUP then
      let r := pm_req_wakeup env (pm_arg0 x1) (pm_arg1 x1) (pm_arg2 x2) (pm_arg3 x2) (security_flag ns)
      (SmcRet.ret1 (u64 r.1), st, some PM_REQ_WAKEUP, r.2)
    else if smc_fid &&& FUNCID_NUM_MASK = PM_SET_WAKEUP_SOURCE then
      let r := pm_set_wakeup_source env (pm_arg0 x1) (pm_arg1 x1) (pm_arg2 x2) (security_flag ns)
      (SmcRet.ret1 (u64 r.1), st, some PM_SET_WAKEUP_SOURCE, r.2)
    else if smc_fid &&& FUNCID_NUM_MASK = PM_REQUEST_DEVICE then
      (SmcRet.ret1 (u64 (api.pm_request_device (pm_arg0 x1) (pm_arg1 x1) (pm_arg2 x2) (pm_arg3 x2) (security_flag ns))), st,
       some PM_REQUEST_DEVICE, [])
    else if smc_fid &&& FUNCID_NUM_MASK = PM_RELEASE_DEVICE then
      (SmcRet.ret1 (u64 (api.pm_release_device (pm_arg0 x1) (security_flag ns))), st,
       some PM_RELEASE_DEVICE, [])
    else if smc_fid &&& FUNCID_NUM_MASK = PM_SET_REQUIREMENT then
      (SmcRet.ret1 (u64 (api.pm_set_requirement (pm_arg0 x1) (pm_arg1 x1) (pm_arg2 x2) (pm_arg3 x2) (security_flag ns))), st,
       some PM_SET_REQUIREMENT, [])
    else if smc_fid &&& FUNCID_NUM_MASK = PM_GET_API_VERSION then
      (SmcRet.ret1 (smcPair PM_RET_SUCCESS (api.pm_get_api_version (security_flag ns)).2), st,
       some PM_GET_API_VERSION, [])
    else if smc_fid &&& FUNCID_NUM_MASK = PM_GET_DEVICE_STATUS then
      let r := api.pm_get_device_status (pm_arg0 x1) (security_flag ns)
      (SmcRet.ret2 (smcPair r.1 r.2.1) (smcPair r.2.2.1 r.2.2.2), st,
       some PM_GET_DEVICE_STATUS, [])
    else if smc_fid &&& FUNCID_NUM_MASK = PM_RESET_ASSERT then
      (SmcRet.ret1 (u64 (api.pm_reset_assert (pm_arg0 x1) (pm_arg1 x1) (security_flag ns))), st,
       some PM_RESET_ASSERT, [])
    else if smc_fid &&& FUNCID_NUM_MASK = PM_RESET_GET_STATUS then
      let r := api.pm_reset_get_status (pm_arg0 x1) (security_flag ns)
      (SmcRet.ret1 (smcPair r.1 r.2), st, some PM_RESET_GET_STATUS, [])
    else if smc_fid &&& FUNCID_NUM_MASK = PM_INIT_FINALIZE then
      (SmcRet.ret1 (u64 (api.pm_init_finalize (security_flag ns))), st, some PM_INIT_FINALIZE, [])
    else if smc_fid &&& FUNCID_NUM_MASK = PM_GET_CALLBACK_DATA then
      let r := pm_get_callbackdata env [0, 0, 0, 0] 4 (security_flag ns) 1
      (SmcRet.ret2 (smcPair (r.1.getD 0 0) (r.1.getD 1 0))
          (smcPair (r.1.getD 2 0) (r.1.getD 3 0)), st,
       some PM_GET_CALLBACK_DATA, r.2)
    else if smc_fid &&& FUNCID_NUM_MASK = PM_PINCTRL_REQUEST then
      (SmcRet.ret1 (u64 (api.pm_pinctrl_request (pm_arg0 x1) (security_flag ns))), st,
       some PM_PINCTRL_REQUEST, [])
    else if smc_fid &&& FUNCID_NUM_MASK = PM_PINCTRL_RELEASE then
      (SmcRet.ret1 (u64 (api.pm_pinctrl_release (pm_arg0 x1) (security_flag ns))), st,
       some PM_PINCTRL_RELEASE, [])
    else if smc_fid &&& FUNCID_NUM_MASK = PM_PINCTRL_GET_FUNCTION then
      let r := api.pm_pinctrl_get_function (pm_arg0 x1) (security_flag ns)
      (SmcRet.ret1 (smcPair r.1 r.2), st, some PM_PINCTRL_GET_FUNCTION, [])
    else if smc_fid &&& FUNCID_NUM_MASK = PM_PINCTRL_SET_FUNCTION then
      (SmcRet.ret1 (u64 (api.pm_pinctrl_set_function (pm_arg0 x1) (pm_arg1 x1) (security_flag ns))), st,
       some PM_PINCTRL_SET_FUNCTION, [])
    else if smc_fid &&& FUNCID_NUM_MASK = PM_PINCTRL_CONFIG_PARAM_GET then
      let r := api.pm_pinctrl_get_pin_param (pm_arg0 x1) (pm_arg1 x1) (security_flag ns)
      (SmcRet.ret1 (smcPair r.1 r.2), st, some PM_PINCTRL_CONFIG_PARAM_GET, [])
    else if smc_fid &&& FUNCID_NUM_MASK = PM_PINCTRL_CONFIG_PARAM_SET then
      (SmcRet.ret1 (u64 (api.pm_pinctrl_set_pin_param (pm_arg0 x1) (pm_arg1 x1) (pm_arg2 x2) (security_flag ns))), st,
       some PM_PINCTRL_CONFIG_PARAM_SET, [])
    else if smc_fid &&& FUNCID_NUM_MASK = PM_IOCTL then
      let r := pm_api_ioctl env st (pm_arg0 x1) (pm_arg1 x1) (pm_arg2 x2) (pm_arg3 x2) 0 0 (security_flag ns)
      (SmcRet.ret1 (smcPair r.1 r.2.1), r.2.2.1, some PM_IOCTL, r.2.2.2)
    else if smc_fid &&& FUNCID_NUM_MASK = PM_QUERY_DATA then
      let r := pm_query_data env (pm_arg0 x1) (pm_arg1 x1) (pm_arg2 x2) (pm_arg3 x2) [0, 0, 0, 0, 0, 0, 0, 0] (security_flag ns)
      (SmcRet.ret2 (smcPair r.1 (r.2.1.getD 0 0))
          (smcPair (r.2.1.getD 1 0) (r.2.1.getD 2 0)), st,
       some PM_QUERY_DATA, r.2.2)
    else if smc_fid &&& FUNCID_NUM_MASK = PM_CLOCK_ENABLE then
      (SmcRet.ret1 (u64 (api.pm_clock_enable (pm_arg0 x1) (security_flag ns))), st, some PM_CLOCK_ENABLE, [])
    else if smc_fid &&& FUNCID_NUM_MASK = PM_CLOCK_DISABLE then
      (SmcRet.ret1 (u64 (api.pm_clock_disable (pm_arg0 x1) (security_flag ns))), st, some PM_CLOCK_DISABLE, [])
    else if smc_fid &&& FUNCID_NUM_MASK = PM_CLOCK_GETSTATE then
      let r := api.pm_clock_get_state (pm_arg0 x1) (security_flag ns)
      (SmcRet.ret1 (smcPair r.1 r.2), st, some PM_CLOCK_GETSTATE, [])
    else if smc_fid &&& FUNCID_NUM_MASK = PM_CLOCK_SETDIVIDER then
      (SmcRet.ret1 (u64 (api.pm_clock_set_divider (pm_arg0 x1) (pm_arg1 x1) (security_flag ns))), st,
       some PM_CLOCK_SETDIVIDER, [])
    else if smc_fid &&& FUNCID_NUM_MASK = PM_CLOCK_GETDIVIDER then
      let r := api.pm_clock_get_divider (pm_arg0 x1) (security_flag ns)
      (SmcRet.ret1 (smcPair r.1 r.2), st, some PM_CLOCK_GETDIVIDER, [])
    else if smc_fid &&& FUNCID_NUM_MASK = PM_CLOCK_SETPARENT then
      (SmcRet.ret1 (u64 (api.pm_clock_set_parent (pm_arg0 x1) (pm_arg1 x1) (security_flag ns))), st,
       some PM_CLOCK_SETPARENT, [])
    else if smc_fid &&& FUNCID_NUM_MASK = PM_CLOCK_GETPARENT then
      let r := api.pm_clock_get_parent (pm_arg0 x1) (security_flag ns)
      (SmcRet.ret1 (smcPair r.1 r.2), st, some PM_CLOCK_GETPARENT, [])
    else if smc_fid &&& FUNCID_NUM_MASK = PM_CLOCK_GETRATE then
      let r := api.pm_clock_get_rate (pm_arg0 x1) (security_flag ns)
      (SmcRet.ret2 (smcPair r.1 r.2.1) (u64 r.2.2), st, some PM_CLOCK_GETRATE, [])
    else if smc_fid &&& FUNCID_NUM_MASK = PM_PLL_SET_PARAMETER then
      let r := pm_pll_set_param env (pm_arg0 x1) (pm_arg1 x1) (pm_arg2 x2) (security_flag ns)
      (SmcRet.ret1 (u64 r.1), st, some PM_PLL_SET_PARAMETER, r.2)
    else if smc_fid &&& FUNCID_NUM_MASK = PM_PLL_GET_PARAMETER then
      let r := pm_pll_get_param env (pm_arg0 x1) (pm_arg1 x1) (security_flag ns)
      (SmcRet.ret1 (smcPair r.1 r.2.1), st, some PM_PLL_GET_PARAMETER, r.2.2)
    else if smc_fid &&& FUNCID_NUM_MASK = PM_PLL_SET_MODE then
      let r := pm_pll_set_mode env (pm_arg0 x1) (pm_arg1 x1) (security_flag ns)
      (SmcRet.ret1 (u64 r.1), st, some PM_PLL_SET_MODE, r.2)
    else if smc_fid &&& FUNCID_NUM_MASK = PM_PLL_GET_MODE then
      let r := pm_pll_get_mode env (pm_arg0 x1) (security_flag ns)
      (SmcRet.ret1 (smcPair r.1 r.2.1), st, some PM_PLL_GET_MODE, r.2.2)
    else if smc_fid &&& FUNCID_NUM_MASK = PM_GET_TRUSTZONE_VERSION then
      (SmcRet.ret1 (smcPair PM_RET_SUCCESS VERSAL_TZ_VERSION), st, none, [])
    else if smc_fid &&& FUNCID_NUM_MASK = PM_GET_CHIPID then
      let r := api.pm_get_chipid (security_flag ns)
      (SmcRet.ret2 (smcPair r.1 r.2.1) (u64 r.2.2), st, some PM_GET_CHIPID, [])
    else if smc_fid &&& FUNCID_NUM_MASK = PM_FEATURE_CHECK then
      let r := pm_feature_check env (pm_arg0 x1) 0 (security_flag ns)
      (SmcRet.ret1 (smcPair r.1 r.2.1), st, some PM_FEATURE_CHECK, r.2.2)
    else if smc_fid &&& FUNCID_NUM_MASK = PM_LOAD_PDI then
      let r := pm_load_pdi env (pm_arg0 x1) (pm_arg1 x1) (pm_arg2 x2) (security_flag ns)
      (SmcRet.ret1 (u64 r.1), st, some PM_LOAD_PDI, r.2)
    else if smc_fid &&& FUNCID_NUM_MASK = PM_GET_OP_CHARACTERISTIC then
      let r := api.pm_get_op_characteristic (pm_arg0 x1) (pm_arg1 x1) (security_flag ns)
      (SmcRet.ret1 (smcPair r.1 r.2), st, some PM_GET_OP_CHARACTERISTIC, [])
    else if smc_fid &&& FUNCID_NUM_MASK = PM_SET_MAX_LATENCY then
      (SmcRet.ret1 (u64 (api.pm_set_max_latency (pm_arg0 x1) (pm_arg1 x1) (security_flag ns))), st,
       some PM_SET_MAX_LATENCY, [])
    else if smc_fid &&& FUNCID_NUM_MASK = PM_REGISTER_NOTIFIER then
      let r := pm_register_notifier env (pm_arg0 x1) (pm_arg1 x1) (pm_arg2 x2) (pm_arg3 x2) (security_flag ns)
      (SmcRet.ret1 (u64 r.1), st, some PM_REGISTER_NOTIFIER, r.2)
    else
      (SmcRet.ret1 SMC_UNK, st, none, [])

/-- The function numbers recognized by the dispatch switch. -/
def pm_recognized (n : Nat) : Prop :=
  n = PM_SELF_SUSPEND ∨ n = PM_FORCE_POWERDOWN ∨ n = PM_REQ_SUSPEND ∨
  n = PM_ABORT_SUSPEND ∨ n = PM_SYSTEM_SHUTDOWN ∨ n = PM_REQ_WAKEUP ∨
  n = PM_SET_WAKEUP_SOURCE ∨ n = PM_REQUEST_DEVICE ∨ n = PM_RELEASE_DEVICE ∨
  n = PM_SET_REQUIREMENT ∨ n = PM_GET_API_VERSION ∨ n = PM_GET_DEVICE_STATUS ∨
  n = PM_RESET_ASSERT ∨ n = PM_RESET_GET_STATUS ∨ n = PM_INIT_FINALIZE ∨
  n = PM_GET_CALLBACK_DATA ∨ n = PM_PINCTRL_REQUEST ∨ n = PM_PINCTRL_RELEASE ∨
  n = PM_PINCTRL_GET_FUNCTION ∨ n = PM_PINCTRL_SET_FUNCTION ∨
  n = PM_PINCTRL_CONFIG_PARAM_GET ∨ n = PM_PINCTRL_CONFIG_PARAM_SET ∨
  n = PM_IOCTL ∨ n = PM_QUERY_DATA ∨ n = PM_CLOCK_ENABLE ∨ n = PM_CLOCK_DISABLE ∨
  n = PM_CLOCK_GETSTATE ∨ n = PM_CLOCK_SETDIVIDER ∨ n = PM_CLOCK_GETDIVIDER ∨
  n = PM_CLOCK_SETPARENT ∨ n = PM_CLOCK_GETPARENT ∨ n = PM_CLOCK_GETRATE ∨
  n = PM_PLL_SET_PARAMETER ∨ n = PM_PLL_GET_PARAMETER ∨ n = PM_PLL_SET_MODE ∨
  n = PM_PLL_GET_MODE ∨ n = PM_GET_TRUSTZONE_VERSION ∨ n = PM_GET_CHIPID ∨
  n = PM_FEATURE_CHECK ∨ n = PM_LOAD_PDI ∨ n = PM_GET_OP_CHARACTERISTIC ∨
  n = PM_SET_MAX_LATENCY ∨ n = PM_REGISTER_NOTIFIER

/-! ## Concrete oracles used by the closed witnesses -/

/-- Test oracle: feature check answers version 2, a query answers the
reply words 10..17; the mailbox interrupt is not pending. -/
def testEnvQ : Env where
  sendSync := fun _ payload _ =>
    if payload.getD 0 0 &&& 0xFF = PM_FEATURE_CHECK then
      (PM_RET_SUCCESS, [2])
    else
      (PM_RET_SUCCESS, [10, 11, 12, 13, 14, 15, 16, 17])
  send := fun _ _ => PM_RET_SUCCESS
  sendNonBlocking := fun _ _ => PM_RET_SUCCESS
  irqStatus := false
  buffRead := fun _ => []
  myCorePos := 0
  getProc := fun _ => none
  primary := ⟨0x18110005, 0⟩

/-- Test oracle: core 0 resolves to a descriptor with node id 3 and
every send succeeds. -/
def testEnvS : Env where
  sendSync := fun _ _ _ => (PM_RET_SUCCESS, [])
  send := fun _ _ => PM_RET_SUCCESS
  sendNonBlocking := fun _ _ => PM_RET_SUCCESS
  irqStatus := false
  buffRead := fun _ => []
  myCorePos := 0
  getProc := fun _ => some ⟨3, 1⟩
  primary := ⟨0x18110005, 0⟩

/-- Test oracle: the mailbox interrupt is pending and the response
buffer holds a suspend-initiation callback payload. -/
def testEnvN : Env where
  sendSync := fun _ _ _ => (PM_RET_SUCCESS, [])
  send := fun _ _ => PM_RET_SUCCESS
  sendNonBlocking := fun _ _ => PM_RET_SUCCESS
  irqStatus := true
  buffRead := fun _ => [30, 0, 0, 0]
  myCorePos := 0
  getProc := fun _ => none
  primary := ⟨0x18110005, 0⟩

/-- Trivial instantiation of the modelled API surface. -/
def trivApi : ApiVTable where
  pm_request_device := fun _ _ _ _ _ => 0
  pm_release_device := fun _ _ => 0
  pm_set_requirement := fun _ _ _ _ _ => 0
  pm_get_api_version := fun _ => (0, 0)
  pm_get_device_status := fun _ _ => (0, 0, 0, 0)
  pm_reset_assert := fun _ _ _ => 0
  pm_reset_get_status := fun _ _ => (0, 0)
  pm_init_finalize := fun _ => 0
  pm_pinctrl_request := fun _ _ => 0
  pm_pinctrl_release := fun _ _ => 0
  pm_pinctrl_get_function := fun _ _ => (0, 0)
  pm_pinctrl_set_function := fun _ _ _ => 0
  pm_pinctrl_get_pin_param := fun _ _ _ => (0, 0)
  pm_pinctrl_set_pin_param := fun _ _ _ _ => 0
  pm_clock_enable := fun _ _ => 0
  pm_clock_disable := fun _ _ => 0
  pm_clock_get_state := fun _ _ => (0, 0)
  pm_clock_set_divider := fun _ _ _ => 0
  pm_clock_get_divider := fun _ _ => (0, 0)
  pm_clock_set_parent := fun _ _ _ => 0
  pm_clock_get_parent := fun _ _ => (0, 0)
  pm_clock_get_rate := fun _ _ => (0, 0, 0)
  pm_get_chipid := fun _ => (0, 0, 0)
  pm_get_op_characteristic := fun _ _ _ => (0, 0)
  pm_set_max_latency := fun _ _ _ => 0

/-! ## Bit-level facts about the codec -/

/-- For a below 2^k, bitwise or with a k-shifted value is addition. -/
theorem lor_shiftLeft_eq_add (a b k : Nat) (h : a < 2 ^ k) :
    a ||| b <<< k = a + b <<< k := by
  apply Nat.eq_of_testBit_eq
  intro j
  rw [Nat.shiftLeft_eq, Nat.mul_comm b (2 ^ k), Nat.add_comm a (2 ^ k * b),
    Nat.testBit_mul_pow_two_add _ h, Nat.testBit_or, Nat.testBit_mul_pow_two]
  by_cases hj : j < k
  · simp [hj, Nat.not_le.mpr hj]
  · have ha : a.testBit j = false :=
      Nat.testBit_lt_two_pow
        (lt_of_lt_of_le h (Nat.pow_le_pow_right (by norm_num) (Nat.le_of_not_lt hj)))
    simp [hj, Nat.le_of_not_lt hj, ha]

/-- With in-range module id and flag, frame word 0 is the sum of its
three disjoint bit fields. -/
theorem packWord0_eq (mid flag arg0 : Nat) (hm : mid < 256) (hf : flag < 2) :
    packWord0 mid flag arg0 = arg0 % 256 + mid * 256 + flag * 2 ^ 24 := by
  have e255 : (0xFF : Nat) = 2 ^ 8 - 1 := by norm_num
  have h1 : arg0 &&& 0xFF = arg0 % 256 := by
    rw [e255, Nat.and_pow_two_sub_one_eq_mod]
  have hm8 : mid <<< 8 = mid * 256 := by
    rw [Nat.shiftLeft_eq]
  have hf24 : flag <<< 24 = flag * 2 ^ 24 := Nat.shiftLeft_eq flag 24
  have e32 : (2 : Nat) ^ 32 = 4294967296 := by norm_num
  have h2 : u32 (mid <<< 8) = mid <<< 8 :=
    Nat.mod_eq_of_lt (by rw [hm8, e32]; omega)
  have h3 : u32 (flag <<< 24) = flag <<< 24 :=
    Nat.mod_eq_of_lt (by rw [hf24, e32]; norm_num; omega)
  unfold packWord0
  rw [h2, h3, h1]
  rw [lor_shiftLeft_eq_add _ _ _ (by omega : arg0 % 256 < 2 ^ 8)]
  rw [lor_shiftLeft_eq_add _ _ _
    (by rw [hm8]; omega : arg0 % 256 + mid <<< 8 < 2 ^ 24)]
  rw [hm8, hf24]
  unfold u32
  apply Nat.mod_eq_of_lt
  have : 2 ^ 24 ≤ 2 ^ 32 := by norm_num
  omega

/-- C4: packing word 0 as (opcode & 0xFF) | (mid << 8) | (flag << 24)
and unpacking its low byte, byte 1 and bit 24 recovers the opcode low
byte, the module id and the flag bit exactly, and words 1..5 of the
frame carry the five raw 32-bit arguments unchanged and in order. -/
theorem pm_pack_roundtrip (opcode mid flag a1 a2 a3 a4 a5 : Nat)
    (hm : mid < 256) (hf : flag < 2)
    (h1 : a1 < 2 ^ 32) (h2 : a2 < 2 ^ 32) (h3 : a3 < 2 ^ 32)
    (h4 : a4 < 2 ^ 32) (h5 : a5 < 2 ^ 32) :
    unpack_opcode ((PM_PACK_PAYLOAD6 mid flag opcode a1 a2 a3 a4 a5).getD 0 0)
        = opcode &&& 0xFF ∧
    unpack_module_id ((PM_PACK_PAYLOAD6 mid flag opcode a1 a2 a3 a4 a5).getD 0 0)
        = mid ∧
    unpack_flag ((PM_PACK_PAYLOAD6 mid flag opcode a1 a2 a3 a4 a5).getD 0 0)
        = flag ∧
    (PM_PACK_PAYLOAD6 mid flag opcode a1 a2 a3 a4 a5).drop 1 = [a1, a2, a3, a4, a5] := by
  have hw0 : (PM_PACK_PAYLOAD6 mid flag opcode a1 a2 a3 a4 a5).getD 0 0
      = packWord0 mid flag opcode := rfl
  have e255 : (0xFF : Nat) = 2 ^ 8 - 1 := by norm_num
  have hop : opcode &&& 0xFF = opcode % 256 := by
    rw [e255, Nat.and_pow_two_sub_one_eq_mod]
  refine ⟨?_, ?_, ?_, ?_⟩
  · rw [hw0, unpack_opcode, packWord0_eq mid flag opcode hm hf, hop, e255,
      Nat.and_pow_two_sub_one_eq_mod]
    have : (2 : Nat) ^ 24 = 65536 * 256 := by norm_num
    omega
  · rw [hw0, unpack_module_id, packWord0_eq mid flag opcode hm hf, e255,
      Nat.and_pow_two_sub_one_eq_mod, Nat.shiftRight_eq_div_pow]
    have : (2 : Nat) ^ 24 = 65536 * 256 := by norm_num
    have e8 : (2 : Nat) ^ 8 = 256 := by norm_num
    rw [e8]
    omega
  · rw [hw0, unpack_flag, packWord0_eq mid flag opcode hm hf,
      Nat.and_one_is_mod, Nat.shiftRight_eq_div_pow]
    have : (2 : Nat) ^ 24 > 256 * 256 := by norm_num
    omega
  · show [u32 a1, u32 a2, u32 a3, u32 a4, u32 a5] = [a1, a2, a3, a4, a5]
    unfold u32
    rw [Nat.mod_eq_of_lt h1, Nat.mod_eq_of_lt h2, Nat.mod_eq_of_lt h3,
      Nat.mod_eq_of_lt h4, Nat.mod_eq_of_lt h5]

/-- Witness for C4: round trip at a concrete frame. -/
theorem pm_pack_roundtrip_witness :
    unpack_opcode ((PM_PACK_PAYLOAD6 2 1 0x123 10 20 30 40 50).getD 0 0) = 0x23 ∧
    unpack_module_id ((PM_PACK_PAYLOAD6 2 1 0x123 10 20 30 40 50).getD 0 0) = 2 ∧
    unpack_flag ((PM_PACK_PAYLOAD6 2 1 0x123 10 20 30 40 50).getD 0 0) = 1 ∧
    (PM_PACK_PAYLOAD6 2 1 0x123 10 20 30 40 50).drop 1 = [10, 20, 30, 40, 50] := by
  have h := pm_pack_roundtrip 0x123 2 1 10 20 30 40 50 (by decide) (by decide)
    (by norm_num) (by norm_num) (by norm_num) (by norm_num) (by norm_num)
  exact ⟨by rw [h.1]; decide, h.2.1, h.2.2.1, h.2.2.2⟩

/-- C5: for every subtype and prior scope, pm_system_shutdown with the
set-scope-only type performs no transport interaction at all, overwrites
the process-wide shutdown scope with the subtype, returns success and
modifies no other state. -/
theorem pm_system_shutdown_setscope (env : Env) (st : PMState) (subtype flag : Nat) :
    pm_system_shutdown env st XPM_SHUTDOWN_TYPE_SETSCOPE_ONLY subtype flag =
      (PM_RET_SUCCESS, { st with pm_shutdown_scope := subtype }, ([] : List Ev)) := by
  rfl

/-! ## Feature check and query data -/

/-- For the query-data opcode the feature check always performs exactly
one blocking one-word send carrying the feature-check frame. -/
theorem pm_feature_check_query_events (env : Env) (v0 flag : Nat) :
    (pm_feature_check env PM_QUERY_DATA v0 flag).2.2 =
      [Ev.sendSync env.primary.node_id
        (PM_PACK_PAYLOAD2 LIBPM_MODULE_ID flag PM_FEATURE_CHECK PM_QUERY_DATA) 1] := by
  simp only [pm_feature_check]
  rw [if_neg (by decide)]
  split <;> rfl

/-- C2: every query-data call first issues a feature check for the
query-data opcode, and the classification of the returned version
word's low 16 bits is exhaustive: 3 yields the not-supported error with
no query sent, for every qid; 2 with a name-lookup qid requests an
8-word reply; every other case requests a 4-word reply. -/
theorem pm_query_data_classification (env : Env) (qid a1 a2 a3 flag : Nat)
    (data : List Nat) :
    ((pm_feature_check env PM_QUERY_DATA 0 flag).2.2 =
      [Ev.sendSync env.primary.node_id
        (PM_PACK_PAYLOAD2 LIBPM_MODULE_ID flag PM_FEATURE_CHECK PM_QUERY_DATA) 1]) ∧
    ((pm_feature_check env PM_QUERY_DATA 0 flag).1 = PM_RET_SUCCESS →
      ((pm_feature_check env PM_QUERY_DATA 0 flag).2.1 &&& 0xFFFF = 3 →
        pm_query_data env qid a1 a2 a3 data flag =
          (PM_RET_ERROR_NOTSUPPORTED, data,
           (pm_feature_check env PM_QUERY_DATA 0 flag).2.2)) ∧
      ((pm_feature_check env PM_QUERY_DATA 0 flag).2.1 &&& 0xFFFF ≠ 3 →
        ((pm_feature_check env PM_QUERY_DATA 0 flag).2.1 &&& 0xFFFF = 2 ∧
            (qid = XPM_QID_CLOCK_GET_NAME ∨ qid = XPM_QID_PINCTRL_GET_FUNCTION_NAME) →
          (pm_query_data env qid a1 a2 a3 data flag).2.2 =
            (pm_feature_check env PM_QUERY_DATA 0 flag).2.2 ++
              [Ev.sendSync env.primary.node_id
                (PM_PACK_PAYLOAD5 LIBPM_MODULE_ID flag PM_QUERY_DATA qid a1 a2 a3) 8]) ∧
        (¬ ((pm_feature_check env PM_QUERY_DATA 0 flag).2.1 &&& 0xFFFF = 2 ∧
            (qid = XPM_QID_CLOCK_GET_NAME ∨ qid = XPM_QID_PINCTRL_GET_FUNCTION_NAME)) →
          (pm_query_data env qid a1 a2 a3 data flag).2.2 =
            (pm_feature_check env PM_QUERY_DATA 0 flag).2.2 ++
              [Ev.sendSync env.primary.node_id
                (PM_PACK_PAYLOAD5 LIBPM_MODULE_ID flag PM_QUERY_DATA qid a1 a2 a3) 4]))) := by
  refine ⟨pm_feature_check_query_events env 0 flag, ?_⟩
  intro hs
  refine ⟨?_, ?_⟩
  · intro h3
    simp only [pm_query_data]
    rw [if_pos hs, if_pos h3]
  · intro h3
    refine ⟨?_, ?_⟩
    · intro h2
      simp only [pm_query_data]
      rw [if_pos hs, if_neg h3, if_pos h2]
    · intro h2
      simp only [pm_query_data]
      rw [if_pos hs, if_neg h3, if_neg h2]

/-- Witness for C2: the version-2 name query requests an 8-word reply
after the feature check. -/
theorem pm_query_data_classification_witness :
    (pm_feature_check testEnvQ PM_QUERY_DATA 0 1).1 = PM_RET_SUCCESS ∧
    (pm_feature_check testEnvQ PM_QUERY_DATA 0 1).2.1 &&& 0xFFFF = 2 ∧
    (pm_query_data testEnvQ 1 0 0 0 [0, 0, 0, 0, 0, 0, 0, 0] 1).2.2 =
      (pm_feature_check testEnvQ PM_QUERY_DATA 0 1).2.2 ++
        [Ev.sendSync 0x18110005
          (PM_PACK_PAYLOAD5 LIBPM_MODULE_ID 1 PM_QUERY_DATA 1 0 0 0) 8] :=
  ⟨by decide, by decide,
   ((pm_query_data_classification testEnvQ 1 0 0 0 1 [0, 0, 0, 0, 0, 0, 0, 0]).2
      (by decide)).2 (by decide) |>.1 ⟨by decide, Or.inl rfl⟩⟩

/-- An 8-word writeback into an 8-word buffer is the reply itself. -/
theorem writeback_eight (buf r : List Nat) (h : buf.length = 8) :
    writeback buf r 8 =
      [r.getD 0 0, r.getD 1 0, r.getD 2 0, r.getD 3 0,
       r.getD 4 0, r.getD 5 0, r.getD 6 0, r.getD 7 0] := by
  unfold writeback
  rw [h]
  rfl

/-- Counterexample for C3: on the v2 name-query path the words past
index 2 are not all shifted down by one; at the concrete reply
10..17 the resulting buffer keeps reply word 3 at index 3. -/
theorem pm_query_data_shift_counterexample :
    ¬ (∀ i, i < 7 →
      (pm_query_data testEnvQ 1 0 0 0 [0, 0, 0, 0, 0, 0, 0, 0] 1).2.1.getD i 0 =
        [10, 11, 12, 13, 14, 15, 16, 17].getD (i + 1) 0) := by
  decide

/-- C3 (amended): on the version-2 name-query path with an 8-word reply
r, the returned status is reply word 0, buffer words 0..2 receive reply
words 1..3, and buffer words 3..7 keep reply words 3..7 (only the first
three words are shifted; the tail is left as read). -/
theorem pm_query_data_shift (env : Env) (qid a1 a2 a3 flag : Nat) (data : List Nat)
    (hlen : data.length = 8)
    (hs : (pm_feature_check env PM_QUERY_DATA 0 flag).1 = PM_RET_SUCCESS)
    (hv : (pm_feature_check env PM_QUERY_DATA 0 flag).2.1 &&& 0xFFFF = 2)
    (hq : qid = XPM_QID_CLOCK_GET_NAME ∨ qid = XPM_QID_PINCTRL_GET_FUNCTION_NAME) :
    (pm_query_data env qid a1 a2 a3 data flag).1 =
      (env.sendSync env.primary
        (PM_PACK_PAYLOAD5 LIBPM_MODULE_ID flag PM_QUERY_DATA qid a1 a2 a3) 8).2.getD 0 0 ∧
    (pm_query_data env qid a1 a2 a3 data flag).2.1 =
      [(env.sendSync env.primary
          (PM_PACK_PAYLOAD5 LIBPM_MODULE_ID flag PM_QUERY_DATA qid a1 a2 a3) 8).2.getD 1 0,
       (env.sendSync env.primary
          (PM_PACK_PAYLOAD5 LIBPM_MODULE_ID flag PM_QUERY_DATA qid a1 a2 a3) 8).2.getD 2 0,
       (env.sendSync env.primary
          (PM_PACK_PAYLOAD5 LIBPM_MODULE_ID flag PM_QUERY_DATA qid a1 a2 a3) 8).2.getD 3 0,
       (env.sendSync env.primary
          (PM_PACK_PAYLOAD5 LIBPM_MODULE_ID flag PM_QUERY_DATA qid a1 a2 a3) 8).2.getD 3 0,
       (env.sendSync env.primary
          (PM_PACK_PAYLOAD5 LIBPM_MODULE_ID flag PM_QUERY_DATA qid a1 a2 a3) 8).2.getD 4 0,
       (env.sendSync env.primary
          (PM_PACK_PAYLOAD5 LIBPM_MODULE_ID flag PM_QUERY_DATA qid a1 a2 a3) 8).2.getD 5 0,
       (env.sendSync env.primary
          (PM_PACK_PAYLOAD5 LIBPM_MODULE_ID flag PM_QUERY_DATA qid a1 a2 a3) 8).2.getD 6 0,
       (env.sendSync env.primary
          (PM_PACK_PAYLOAD5 LIBPM_MODULE_ID flag PM_QUERY_DATA qid a1 a2 a3) 8).2.getD 7 0] := by
  simp only [pm_query_data]
  rw [if_pos hs, if_neg (by omega), if_pos ⟨hv, hq⟩,
    writeback_eight data _ hlen]
  exact ⟨rfl, rfl⟩

/-- Witness for C3 (amended): concrete reply 10..17 yields status 10
and buffer 11,12,13,13,14,15,16,17. -/
theorem pm_query_data_shift_witness :
    (pm_query_data testEnvQ 1 0 0 0 [0, 0, 0, 0, 0, 0, 0, 0] 1).1 = 10 ∧
    (pm_query_data testEnvQ 1 0 0 0 [0, 0, 0, 0, 0, 0, 0, 0] 1).2.1 =
      [11, 12, 13, 13, 14, 15, 16, 17] := by
  have h := pm_query_data_shift testEnvQ 1 0 0 0 1 [0, 0, 0, 0, 0, 0, 0, 0]
    (by decide) (by decide) (by decide) (Or.inl rfl)
  refine ⟨?_, ?_⟩
  · rw [h.1]; decide
  · rw [h.2]; decide

/-! ## Suspend-self scenario -/

/-- C7: suspending self with node 3, latency 0, state 1, address 0x1000
(the caller's descriptor carrying node id 3) packs a frame whose word 0
low byte is the SELF_SUSPEND opcode and whose argument words carry
3, 0, 1, 0x1000, 0 in order, runs the client hook, dispatches one
blocking synchronous send, and returns SUCCESS when the send does. -/
theorem pm_self_suspend_scenario (env : Env) (proc : PmProc) (flag : Nat)
    (hproc : env.getProc env.myCorePos = some proc)
    (hnode : proc.node_id = 3)
    (hflag : flag < 2)
    (hok : (env.sendSync proc
        (PM_PACK_PAYLOAD6 LIBPM_MODULE_ID flag PM_SELF_SUSPEND 3 0 1 0x1000 0) 0).1 =
      PM_RET_SUCCESS) :
    unpack_opcode ((PM_PACK_PAYLOAD6 LIBPM_MODULE_ID flag PM_SELF_SUSPEND 3 0 1
        0x1000 0).getD 0 0) = PM_SELF_SUSPEND ∧
    (PM_PACK_PAYLOAD6 LIBPM_MODULE_ID flag PM_SELF_SUSPEND 3 0 1 0x1000 0).drop 1 =
      [3, 0, 1, 0x1000, 0] ∧
    pm_self_suspend env 3 0 1 0x1000 flag =
      (PM_RET_SUCCESS,
       [Ev.clientSuspend 3 1,
        Ev.sendSync 3
          (PM_PACK_PAYLOAD6 LIBPM_MODULE_ID flag PM_SELF_SUSPEND 3 0 1 0x1000 0) 0]) := by
  have hpk := pm_pack_roundtrip PM_SELF_SUSPEND LIBPM_MODULE_ID flag 3 0 1 0x1000 0
    (by decide) hflag (by decide) (by decide) (by decide) (by decide) (by decide)
  refine ⟨?_, hpk.2.2.2, ?_⟩
  · rw [hpk.1]; decide
  · simp only [pm_self_suspend, hproc]
    rw [hnode, show (0x1000 : Nat) >>> 32 = 0 by decide, hok]

/-- Witness for C7: concrete oracle resolving core 0 to node 3. -/
theorem pm_self_suspend_scenario_witness :
    pm_self_suspend testEnvS 3 0 1 0x1000 1 =
      (PM_RET_SUCCESS,
       [Ev.clientSuspend 3 1,
        Ev.sendSync 3
          (PM_PACK_PAYLOAD6 LIBPM_MODULE_ID 1 PM_SELF_SUSPEND 3 0 1 0x1000 0) 0]) ∧
    (PM_PACK_PAYLOAD6 LIBPM_MODULE_ID 1 PM_SELF_SUSPEND 3 0 1 0x1000 0).drop 1 =
      [3, 0, 1, 0x1000, 0] := by
  have h := pm_self_suspend_scenario testEnvS ⟨3, 1⟩ 1 rfl rfl (by decide) (by decide)
  exact ⟨h.2.2, h.2.1⟩

/-! ## IOCTL dispatch -/

/-- Counterexample for C9: a duplicate SGI registration through the
ioctl path does not surface a distinct busy error; the ioctl collapses
the underlying -EBUSY to PM_RET_ERROR_ARGS, the same status returned
for a bad SGI number. -/
theorem pm_api_ioctl_busy_collapsed :
    (pm_api_ioctl testEnvQ ⟨true, 5, 2⟩ 0 IOCTL_SET_SGI 7 0 0 0 1).1 =
      PM_RET_ERROR_ARGS ∧
    (pm_api_ioctl testEnvQ ⟨true, 0xFF, 2⟩ 0 IOCTL_SET_SGI 99 0 0 0 1).1 =
      PM_RET_ERROR_ARGS ∧
    (pm_register_sgi ⟨true, 5, 2⟩ 7 0).1 = -(EBUSY : Int) := by
  decide

/-- C9 (amended): the SET_SGI ioctl performs no transport interaction
and applies the SGI registration state machine, but every failure of
the state machine (busy as well as invalid argument) surfaces as
PM_RET_ERROR_ARGS; unknown nested ioctl ids return NOT_SUPPORTED. -/
theorem pm_api_ioctl_sgi (env : Env) (st : PMState)
    (device_id a1 a2 a3 v0 flag ioctl_id : Nat) :
    ((pm_api_ioctl env st device_id IOCTL_SET_SGI a1 a2 a3 v0 flag).2.2.2 = []) ∧
    ((pm_api_ioctl env st device_id IOCTL_SET_SGI a1 a2 a3 v0 flag).2.2.1 =
      (pm_register_sgi st a1 a2).2) ∧
    ((pm_api_ioctl env st device_id IOCTL_SET_SGI a1 a2 a3 v0 flag).1 =
      if (pm_register_sgi st a1 a2).1 ≠ 0 then PM_RET_ERROR_ARGS else PM_RET_SUCCESS) ∧
    (st.sgi ≠ INVALID_SGI → a2 ≠ 1 →
      (pm_api_ioctl env st device_id IOCTL_SET_SGI a1 a2 a3 v0 flag).1 =
        PM_RET_ERROR_ARGS) ∧
    (st.sgi = INVALID_SGI → a2 ≠ 1 → GICV3_MAX_SGI_TARGETS ≤ a1 →
      (pm_api_ioctl env st device_id IOCTL_SET_SGI a1 a2 a3 v0 flag).1 =
        PM_RET_ERROR_ARGS) ∧
    (ioctl_id ≠ IOCTL_SET_PLL_FRAC_MODE → ioctl_id ≠ IOCTL_GET_PLL_FRAC_MODE →
      ioctl_id ≠ IOCTL_SET_PLL_FRAC_DATA → ioctl_id ≠ IOCTL_GET_PLL_FRAC_DATA →
      ioctl_id ≠ IOCTL_SET_SGI →
      pm_api_ioctl env st device_id ioctl_id a1 a2 a3 v0 flag =
        (PM_RET_ERROR_NOTSUPPORTED, v0, st, [])) := by
  have hioctl : pm_api_ioctl env st device_id IOCTL_SET_SGI a1 a2 a3 v0 flag =
      (if (pm_register_sgi st a1 a2).1 ≠ 0 then PM_RET_ERROR_ARGS else PM_RET_SUCCESS,
       v0, (pm_register_sgi st a1 a2).2, []) := by
    unfold pm_api_ioctl
    rw [if_neg (by decide : ¬(IOCTL_SET_SGI = IOCTL_SET_PLL_FRAC_MODE)),
      if_neg (by decide : ¬(IOCTL_SET_SGI = IOCTL_GET_PLL_FRAC_MODE)),
      if_neg (by decide : ¬(IOCTL_SET_SGI = IOCTL_SET_PLL_FRAC_DATA)),
      if_neg (by decide : ¬(IOCTL_SET_SGI = IOCTL_GET_PLL_FRAC_DATA)),
      if_pos rfl]
    split_ifs with h <;> rfl
  refine ⟨by rw [hioctl], by rw [hioctl], by rw [hioctl], ?_, ?_, ?_⟩
  · intro h1 h2
    have hreg : (pm_register_sgi st a1 a2).1 = -(EBUSY : Int) := by
      simp [pm_register_sgi, h1, h2]
    rw [hioctl, hreg, if_pos (by decide)]
  · intro h1 h2 h3
    have hreg : (pm_register_sgi st a1 a2).1 = -(EINVAL : Int) := by
      simp [pm_register_sgi, h1, h2, h3, Nat.not_lt.mpr h3]
    rw [hioctl, hreg, if_pos (by decide)]
  · intro g1 g2 g3 g4 g5
    simp only [pm_api_ioctl]
    rw [if_neg g1, if_neg g2, if_neg g3, if_neg g4, if_neg g5]

/-- Witness for C9 (amended): duplicate registration and an unknown
ioctl id, at concrete inputs. -/
theorem pm_api_ioctl_sgi_witness :
    (pm_api_ioctl testEnvQ ⟨true, 5, 2⟩ 0 IOCTL_SET_SGI 7 0 0 0 1).1 =
      PM_RET_ERROR_ARGS ∧
    (pm_api_ioctl testEnvQ ⟨true, 5, 2⟩ 0 IOCTL_SET_SGI 7 0 0 0 1).2.2.2 = [] ∧
    pm_api_ioctl testEnvQ ⟨true, 5, 2⟩ 0 77 7 0 0 0 1 =
      (PM_RET_ERROR_NOTSUPPORTED, 0, ⟨true, 5, 2⟩, []) := by
  have h := pm_api_ioctl_sgi testEnvQ ⟨true, 5, 2⟩ 0 7 0 0 0 1 77
  exact ⟨h.2.2.2.1 (by decide) (by decide), h.1,
    h.2.2.2.2.2 (by decide) (by decide) (by decide) (by decide) (by decide)⟩

/-! ## Notification path -/

/-- C8: a suspend-initiation callback (payload word 0 = 30) delivered
while SGI n is registered makes the FIQ handler raise SGI n via the
ASGI register, with the SGI number in the initid field and the issuing
core's index plus one in the target bits; with no registration the
notification is dropped without raising anything; both paths
acknowledge first and end with end-of-interrupt. -/
theorem ipi_fiq_suspend_notification (env : Env) (st : PMState) (id n : Nat)
    (hirq : env.irqStatus = true)
    (hcb : (env.buffRead 4).getD 0 0 = PM_INIT_SUSPEND_CB)
    (hcore : env.myCorePos + 1 < 2 ^ 24)
    (hn : n < 16) :
    (st.sgi = n → n ≠ INVALID_SGI →
      ipi_fiq_handler env st id =
        [Ev.ack, Ev.buffRead 4,
         Ev.sgiWrite (env.myCorePos + 1 + n * 2 ^ 24), Ev.eoi id] ∧
      (env.myCorePos + 1 + n * 2 ^ 24) >>> XSCUGIC_SGIR_EL1_INITID_SHIFT = n ∧
      (env.myCorePos + 1 + n * 2 ^ 24) % 2 ^ 24 = env.myCorePos + 1) ∧
    (st.sgi = INVALID_SGI →
      ipi_fiq_handler env st id = [Ev.ack, Ev.buffRead 4, Ev.eoi id]) := by
  have hF : ¬ (env.irqStatus = false) := by rw [hirq]; decide
  have hcb2 : pm_get_callbackdata env [0, 0, 0, 0] 4 0 0 =
      (writeback [0, 0, 0, 0] (env.buffRead 4) 4, [Ev.buffRead 4]) := by
    unfold pm_get_callbackdata
    rw [if_neg hF]
    rfl
  have hw : writeback [0, 0, 0, 0] (env.buffRead 4) 4 =
      [(env.buffRead 4).getD 0 0, (env.buffRead 4).getD 1 0,
       (env.buffRead 4).getD 2 0, (env.buffRead 4).getD 3 0] := rfl
  have e24 : (2 : Nat) ^ 24 = 16777216 := by norm_num
  have e32 : (2 : Nat) ^ 32 = 4294967296 := by norm_num
  have key : u32 ((env.myCorePos + 1) ||| (n <<< XSCUGIC_SGIR_EL1_INITID_SHIFT)) =
      env.myCorePos + 1 + n * 2 ^ 24 := by
    rw [show XSCUGIC_SGIR_EL1_INITID_SHIFT = 24 from rfl,
      lor_shiftLeft_eq_add _ _ _ hcore, Nat.shiftLeft_eq]
    unfold u32
    apply Nat.mod_eq_of_lt
    rw [e32]
    rw [e24] at hcore ⊢
    omega
  constructor
  · intro hsgi hne
    refine ⟨?_, ?_, ?_⟩
    · simp only [ipi_fiq_handler, hcb2, hw, List.getD_cons_zero, hcb, notify_os,
        ite_true]
      rw [hsgi, if_pos hne, key]
      rfl
    · rw [show XSCUGIC_SGIR_EL1_INITID_SHIFT = 24 from rfl,
        Nat.shiftRight_eq_div_pow]
      rw [e24] at hcore ⊢
      omega
    · rw [e24] at hcore ⊢
      omega
  · intro hsgi
    simp only [ipi_fiq_handler, hcb2, hw, List.getD_cons_zero, hcb, ite_true]
    rw [hsgi, if_neg (by decide : ¬(INVALID_SGI ≠ INVALID_SGI))]
    rfl

/-- Witness for C8: register SGI 7 and deliver payload 30,0,0,0. -/
theorem ipi_fiq_suspend_notification_witness :
    ipi_fiq_handler testEnvN ⟨true, 7, 2⟩ 89 =
      [Ev.ack, Ev.buffRead 4,
       Ev.sgiWrite (testEnvN.myCorePos + 1 + 7 * 2 ^ 24), Ev.eoi 89] ∧
    ipi_fiq_handler testEnvN ⟨true, 0xFF, 2⟩ 89 =
      [Ev.ack, Ev.buffRead 4, Ev.eoi 89] := by
  have h := ipi_fiq_suspend_notification testEnvN ⟨true, 7, 2⟩ 89 7
    rfl rfl (by decide) (by decide)
  have h2 := ipi_fiq_suspend_notification testEnvN ⟨true, 0xFF, 2⟩ 89 7
    rfl rfl (by decide) (by decide)
  exact ⟨(h.1 rfl (by decide)).1, h2.2 rfl⟩

/-! ## SMC dispatch totality -/

/-- C6: the SMC handler returns the unknown-SMC sentinel without
invoking any API surface function whenever the service-up flag is
false, and returns the same sentinel (never aborting) for every
function id whose function-number bits match no recognized opcode. -/
theorem pm_smc_handler_unknown (env : Env) (api : ApiVTable) (st : PMState)
    (smc_fid x1 x2 x3 x4 : Nat) (ns : Bool) :
    (st.pm_up = false →
      pm_smc_handler env api st smc_fid x1 x2 x3 x4 ns =
        (SmcRet.ret1 SMC_UNK, st, none, [])) ∧
    (¬ pm_recognized (smc_fid &&& FUNCID_NUM_MASK) →
      pm_smc_handler env api st smc_fid x1 x2 x3 x4 ns =
        (SmcRet.ret1 SMC_UNK, st, none, [])) := by
  constructor
  · intro h
    unfold pm_smc_handler
    rw [if_pos h]
  · intro h
    by_cases hup : st.pm_up = false
    · unfold pm_smc_handler
      rw [if_pos hup]
    · simp only [pm_recognized] at h
      push_neg at h
      obtain ⟨n1, n2, n3, n4, n5, n6, n7, n8, n9, n10, n11, n12, n13, n14,
        n15, n16, n17, n18, n19, n20, n21, n22, n23, n24, n25, n26, n27, n28,
        n29, n30, n31, n32, n33, n34, n35, n36, n37, n38, n39, n40, n41, n42,
        n43⟩ := h
      unfold pm_smc_handler
      rw [if_neg hup, if_neg n1, if_neg n2, if_neg n3, if_neg n4, if_neg n5,
        if_neg n6, if_neg n7, if_neg n8, if_neg n9, if_neg n10, if_neg n11,
        if_neg n12, if_neg n13, if_neg n14, if_neg n15, if_neg n16, if_neg n17,
        if_neg n18, if_neg n19, if_neg n20, if_neg n21, if_neg n22, if_neg n23,
        if_neg n24, if_neg n25, if_neg n26, if_neg n27, if_neg n28, if_neg n29,
        if_neg n30, if_neg n31, if_neg n32, if_neg n33, if_neg n34, if_neg n35,
        if_neg n36, if_neg n37, if_neg n38, if_neg n39, if_neg n40, if_neg n41,
        if_neg n42, if_neg n43]

/-- Witness for C6: service down, and an unrecognized function id. -/
theorem pm_smc_handler_unknown_witness :
    pm_smc_handler testEnvQ trivApi ⟨false, 0xFF, 2⟩ 0xC2000ABC 1 2 3 4 true =
      (SmcRet.ret1 SMC_UNK, ⟨false, 0xFF, 2⟩, none, []) ∧
    pm_smc_handler testEnvQ trivApi ⟨true, 0xFF, 2⟩ 0xC2000ABC 1 2 3 4 true =
      (SmcRet.ret1 SMC_UNK, ⟨true, 0xFF, 2⟩, none, []) :=
  ⟨(pm_smc_handler_unknown testEnvQ trivApi ⟨false, 0xFF, 2⟩ 0xC2000ABC 1 2 3 4 true).1
      rfl,
   (pm_smc_handler_unknown testEnvQ trivApi ⟨true, 0xFF, 2⟩ 0xC2000ABC 1 2 3 4 true).2
      (by unfold pm_recognized; decide)⟩

/-! ## Callback data with no pending interrupt -/

/-- C10: when the mailbox interrupt is not pending, pm_get_callbackdata
returns at once: the caller's buffer is unchanged and the interrupt is
not cleared; consequently the PM_GET_CALLBACK_DATA SMC, which
zero-initializes its buffer, returns all-zero registers. -/
theorem pm_get_callbackdata_no_pending (env : Env) (api : ApiVTable) (st : PMState)
    (x1 x2 x3 x4 : Nat) (ns : Bool) (data : List Nat) (count flag ack : Nat)
    (hirq : env.irqStatus = false) (hup : st.pm_up = true) :
    pm_get_callbackdata env data count flag ack = (data, []) ∧
    pm_smc_handler env api st PM_GET_CALLBACK_DATA x1 x2 x3 x4 ns =
      (SmcRet.ret2 0 0, st, some PM_GET_CALLBACK_DATA, []) := by
  have hcb : ∀ d c f a, pm_get_callbackdata env d c f a = (d, []) := by
    intro d c f a
    unfold pm_get_callbackdata
    rw [if_pos hirq]
  refine ⟨hcb data count flag ack, ?_⟩
  have hup2 : ¬ (st.pm_up = false) := by rw [hup]; decide
  unfold pm_smc_handler
  rw [if_neg hup2,
    if_neg (by decide : ¬(PM_GET_CALLBACK_DATA &&& FUNCID_NUM_MASK = PM_SELF_SUSPEND)),
    if_neg (by decide : ¬(PM_GET_CALLBACK_DATA &&& FUNCID_NUM_MASK = PM_FORCE_POWERDOWN)),
    if_neg (by decide : ¬(PM_GET_CALLBACK_DATA &&& FUNCID_NUM_MASK = PM_REQ_SUSPEND)),
    if_neg (by decide : ¬(PM_GET_CALLBACK_DATA &&& FUNCID_NUM_MASK = PM_ABORT_SUSPEND)),
    if_neg (by decide : ¬(PM_GET_CALLBACK_DATA &&& FUNCID_NUM_MASK = PM_SYSTEM_SHUTDOWN)),
    if_neg (by decide : ¬(PM_GET_CALLBACK_DATA &&& FUNCID_NUM_MASK = PM_REQ_WAKEUP)),
    if_neg (by decide : ¬(PM_GET_CALLBACK_DATA &&& FUNCID_NUM_MASK = PM_SET_WAKEUP_SOURCE)),
    if_neg (by decide : ¬(PM_GET_CALLBACK_DATA &&& FUNCID_NUM_MASK = PM_REQUEST_DEVICE)),
    if_neg (by decide : ¬(PM_GET_CALLBACK_DATA &&& FUNCID_NUM_MASK = PM_RELEASE_DEVICE)),
    if_neg (by decide : ¬(PM_GET_CALLBACK_DATA &&& FUNCID_NUM_MASK = PM_SET_REQUIREMENT)),
    if_neg (by decide : ¬(PM_GET_CALLBACK_DATA &&& FUNCID_NUM_MASK = PM_GET_API_VERSION)),
    if_neg (by decide : ¬(PM_GET_CALLBACK_DATA &&& FUNCID_NUM_MASK = PM_GET_DEVICE_STATUS)),
    if_neg (by decide : ¬(PM_GET_CALLBACK_DATA &&& FUNCID_NUM_MASK = PM_RESET_ASSERT)),
    if_neg (by decide : ¬(PM_GET_CALLBACK_DATA &&& FUNCID_NUM_MASK = PM_RESET_GET_STATUS)),
    if_neg (by decide : ¬(PM_GET_CALLBACK_DATA &&& FUNCID_NUM_MASK = PM_INIT_FINALIZE)),
    if_pos (by decide : PM_GET_CALLBACK_DATA &&& FUNCID_NUM_MASK = PM_GET_CALLBACK_DATA),
    hcb]
  rfl

/-- Witness for C10: concrete oracle with no pending interrupt. -/
theorem pm_get_callbackdata_no_pending_witness :
    pm_get_callbackdata testEnvQ [1, 2, 3, 4] 4 0 0 = ([1, 2, 3, 4], []) ∧
    pm_smc_handler testEnvQ trivApi ⟨true, 0xFF, 2⟩ PM_GET_CALLBACK_DATA 0 0 0 0 true =
      (SmcRet.ret2 0 0, ⟨true, 0xFF, 2⟩, some PM_GET_CALLBACK_DATA, []) :=
  pm_get_callbackdata_no_pending testEnvQ trivApi ⟨true, 0xFF, 2⟩ 0 0 0 0 true
    [1, 2, 3, 4] 4 0 0 rfl rfl

end VersalPM
